import Mathlib

/-!
Shallow embedding of the Open-Catalyst-Dataset sampling code
(`ocdata/adsorptions.py` and `ocdata/combined.py`).

Modelling conventions:
* `ase.Atoms`, `catkit.Gratoms` and `pymatgen.Structure` values are all
  represented by the `Atoms` structure below; the `AseAtomsAdaptor`
  conversions between these Python types are the identity in the model.
* Real-valued quantities are rationals.  Quantities that the Python code
  obtains from external libraries (vector norms, fractional coordinates,
  Voronoi coordination numbers, minimum-image distances, symmetry data,
  pickled databases) are supplied by oracle fields of `ChemEnv`/`EnumEnv`.
* Python exceptions are modelled with `Except PyErr`; an uncaught exception
  is an `Except.error` result.
* `np.random` draws are modelled by a deterministic stream `Rng`; each
  `np.random.choice` call consumes exactly one draw and maps it into range
  with a modulus (the distribution itself is abstracted away).
* The tables `COVALENT_RADIUS`, `MAX_MILLER` and `MIN_XY` come from
  `ocdata/constants.py`, which is not part of the two source files; they are
  modelled as opaque environment fields, which is all the code uses of them.
-/

namespace OCData

/-- Cartesian or fractional coordinates: a triple of rationals. -/
abbrev Pos : Type := ℚ × ℚ × ℚ

/-- Miller indices: a triple of integers. -/
abbrev Millers : Type := ℤ × ℤ × ℤ

/-- One atom of an `ase.Atoms` object: chemical symbol (`species_string`),
the ase tag, and the Cartesian position. -/
structure Atom where
  element : String
  tag : ℤ
  position : Pos
deriving DecidableEq, Repr, Inhabited

/-- An `ase.Atoms` / `catkit.Gratoms` / `pymatgen.Structure` value: the three
unit-cell vectors, the list of atoms, the periodic-boundary flags and the
list of `FixAtoms` constraint masks. -/
structure Atoms where
  cellA : Pos
  cellB : Pos
  cellC : Pos
  atoms : List Atom
  pbc : Bool × Bool × Bool
  constraints : List (List Bool)
deriving DecidableEq, Repr, Inhabited

/-- The Python exceptions that the modelled code can raise or catch. -/
inductive PyErr where
  | valueError (msg : String)
  | indexError (msg : String)
  | typeError (msg : String)
  | assertionError
  | runtimeError
deriving DecidableEq, Repr

/-- The message numpy uses when `np.random.choice` is given an empty range. -/
def npEmptyChoiceMsg : String := "a must be greater than 0 unless no samples are taken"

/-- Deterministic model of the `np.random` stream: `f k` is the `k`-th raw
draw and `c` counts how many draws have been consumed so far. -/
structure Rng where
  f : Nat → Nat
  c : Nat

/-- Model of `np.random.choice(n)` (and of `np.random.choice(range(n))`):
raises `ValueError` on an empty range, otherwise consumes one draw and
returns an index `< n`. -/
def np_random_choice (n : Nat) (g : Rng) : Except PyErr (Nat × Rng) :=
  if n = 0 then .error (.valueError npEmptyChoiceMsg)
  else .ok (g.f g.c % n, ⟨g.f, g.c + 1⟩)

/-- One record of the precomputed surface-enumeration pickle: a pymatgen
structure, the Miller indices, the shift and the top flag. -/
structure SurfaceInfo where
  struct : Atoms
  millers : Millers
  shift : ℚ
  top : Bool
deriving DecidableEq, Repr, Inhabited

/-- One record of the pickled bulk inverted index, in the tuple order used by
`choose_bulk_pkl`'s unpacking: `(bulk, mpid, sampling_string, index_in_flattened_array)`. -/
structure BulkEntry where
  bulk : Atoms
  mpid : String
  samplingStr : String
  flatIndex : Nat
deriving DecidableEq, Repr, Inhabited

/-- A pymatgen `Slab` as returned by `SlabGenerator.get_slabs`: the structure
together with its `shift` attribute. -/
structure Slab where
  rep : Atoms
  shift : ℚ
deriving DecidableEq, Repr, Inhabited

/-- Oracles for the external chemistry libraries and data files used by the
sampling path (everything except surface enumeration). -/
structure ChemEnv where
  speciesWeight : String → ℚ
  fracCoords : Atoms → Nat → Pos
  scaledPositions : Atoms → List Pos
  norm : Pos → ℚ
  surfCN : Atoms → Nat → Option ℚ
  equivalentIndices : Atoms → List (List Nat)
  bulkCN : Atoms → Nat → Option ℚ
  nnInfo : Atoms → Nat → List Nat
  micDist : Atoms → Nat → Nat → ℚ
  covalentRadius : String → ℚ
  connectivity : Atoms → List (List Nat)
  placements : Atoms → List Nat → Atoms → List Nat → List (List Pos)
  precomputed : Nat → List SurfaceInfo
  loadBulkDB : String → List (Nat × List BulkEntry)
  loadAdsDB : String → List (Atoms × String × List Nat)
  minXY : ℚ

/-- Oracles for the external libraries used only by `enumerate_surfaces` and
its helpers (`standardize_bulk`, `is_structure_invertible`, `flip_struct`),
together with the module constant `MAX_MILLER`. -/
structure EnumEnv where
  standardize : Atoms → Atoms
  distinctMillers : Atoms → Nat → List Millers
  getSlabs : Atoms → Millers → List Slab
  symmetryOpsZZ : Atoms → List ℚ
  wrap : Atoms → Atoms
  rotate180x : Atoms → Atoms
  maxMiller : Nat

/-- The full environment a run of the module sees. -/
structure Env where
  chem : ChemEnv
  enums : EnumEnv

/-- Python `round(q, 5)` (used on Voronoi coordination numbers).  Ties are
rounded half-up here where Python uses banker's rounding; no claim depends
on the tie case. -/
def round5 (q : ℚ) : ℚ := ((round (q * 100000) : ℤ) : ℚ) / 100000

/-- Python `round(q, 3)` (used on the surface shift). -/
def round3 (q : ℚ) : ℚ := ((round (q * 1000) : ℤ) : ℚ) / 1000

/-- Python `round(q, 2)` (used on binding-site coordinates). -/
def round2 (q : ℚ) : ℚ := ((round (q * 100) : ℤ) : ℚ) / 100

/-- The `species_string` of site `i` of a structure. -/
def speciesStringAt (s : Atoms) (i : Nat) : String :=
  (s.atoms.getD i default).element

/-- The default `n_cat_elems_weights` dictionary `{1: 0.05, 2: 0.65, 3: 0.3}`
of `choose_n_elems`, as an ordered association list. -/
def default_n_cat_elems_weights : List (Nat × ℚ) :=
  [(1, 1/20), (2, 13/20), (3, 3/10)]

/-- `choose_n_elems` from `adsorptions.py`.  The `assert math.isclose(sum(weights), 1)`
is modelled as an exact rational comparison; `np.random.choice(n_elems, p=weights)`
consumes one draw and picks an element of the key list (the weighted
distribution is abstracted, the weights only being checked for their sum). -/
def choose_n_elems (n_cat_elems_weights : Option (List (Nat × ℚ))) (g : Rng) :
    Except PyErr ((Nat × String) × Rng) :=
  let w := n_cat_elems_weights.getD default_n_cat_elems_weights
  let n_elems := w.map (fun p => p.1)
  let weights := w.map (fun p => p.2)
  if weights.sum = 1 then
    match np_random_choice n_elems.length g with
    | .error e => .error e
    | .ok (k, g') =>
      let n_elem := n_elems.getD k 0
      .ok ((n_elem, toString n_elem ++ "/" ++ toString n_elems.length), g')
  else .error .assertionError

/-- Lookup in the pickled bulk inverted index; `none` models the failure of
the `assert n_elems in inv_index.keys()`. -/
def lookupInv (inv : List (Nat × List BulkEntry)) (n : Nat) : Option (List BulkEntry) :=
  (inv.find? (fun p => p.1 == n)).map (fun p => p.2)

/-- The descriptive error message `choose_bulk_pkl` advertises for a missing
component count.  (In the Python source the `%`-format has three arguments
for two placeholders, so actually executing that `raise` would itself fail
with a `TypeError`; the handler is modelled as raising the intended message,
and is proved unreachable in any case.) -/
def descriptiveMissingMsg (n : Nat) (db : String) : String :=
  "Randomly chose to look for a " ++ toString n ++
    "-component material, but no such materials exist in " ++ db ++
    ". Please add one to the database or change the weights to exclude this number of components."

/-- `choose_bulk_pkl` from `adsorptions.py`: look up the entry list for
`n_elems` (the `assert`), then inside a `try` block draw a row with
`np.random.choice` and unpack it; an `IndexError` — and only an
`IndexError` — would be converted to the descriptive `ValueError`. -/
def choose_bulk_pkl (env : Env) (bulk_database : String) (n_elems : Nat) (g : Rng) :
    Except PyErr ((Atoms × String × Nat × String) × Rng) :=
  let inv_index := env.chem.loadBulkDB bulk_database
  match lookupInv inv_index n_elems with
  | none => .error .assertionError
  | some entries =>
    match np_random_choice entries.length g with
    | .error (.indexError _) => .error (.valueError (descriptiveMissingMsg n_elems bulk_database))
    | .error e => .error e
    | .ok (row_bulk_index, g') =>
      let e := entries.getD row_bulk_index default
      .ok ((e.bulk, e.mpid, e.flatIndex, e.samplingStr), g')

/-- `read_from_precomputed_enumerations`: unpickle the file named
`<index>.pkl` from the precomputed-structure cache. -/
def read_from_precomputed_enumerations (env : Env) (index : Nat) : List SurfaceInfo :=
  env.chem.precomputed index

/-- Componentwise sum of two coordinate triples. -/
def posAdd (p q : Pos) : Pos := (p.1 + q.1, p.2.1 + q.2.1, p.2.2 + q.2.2)

/-- A natural multiple of a coordinate triple. -/
def posSMul (n : Nat) (p : Pos) : Pos := ((n : ℚ) * p.1, (n : ℚ) * p.2.1, (n : ℚ) * p.2.2)

/-- Componentwise negation of a coordinate triple. -/
def posNeg (p : Pos) : Pos := (-p.1, -p.2.1, -p.2.2)

/-- The cross product of two cell vectors (the `np.cross` call of `flip_struct`). -/
def cross (a b : Pos) : Pos :=
  (a.2.1 * b.2.2 - a.2.2 * b.2.1, a.2.2 * b.1 - a.1 * b.2.2, a.1 * b.2.1 - a.2.1 * b.1)

/-- `tile_atoms` from `adsorptions.py`: repeat the structure `nx` times along
the first cell vector and `ny` times along the second, where
`nx = ceil(MIN_XY / |cell[0]|)` and `ny = ceil(MIN_XY / |cell[1]|)`.
The cell-vector norms come from the `norm` oracle (`np.linalg.norm`); the
ordering of the repeated copies is immaterial to every claim. -/
def tile_atoms (env : Env) (s : Atoms) : Atoms :=
  let x_length := env.chem.norm s.cellA
  let y_length := env.chem.norm s.cellB
  let nx := (⌈env.chem.minXY / x_length⌉ : ℤ).toNat
  let ny := (⌈env.chem.minXY / y_length⌉ : ℤ).toNat
  { s with
    cellA := posSMul nx s.cellA
    cellB := posSMul ny s.cellB
    atoms := ((List.range nx).map (fun i =>
      ((List.range ny).map (fun j =>
        s.atoms.map (fun a =>
          { a with position := posAdd a.position (posAdd (posSMul i s.cellA) (posSMul j s.cellB)) }))).flatten)).flatten }

/-- `calculate_center_of_mass` from `adsorptions.py`: the componentwise
weighted average of the fractional coordinates, with the pymatgen species
weights.  (With an empty structure numpy would raise; the rational model
returns zeros there, a case no claim exercises.) -/
def calculate_center_of_mass (env : Env) (s : Atoms) : Pos :=
  let ws := s.atoms.map (fun a => env.chem.speciesWeight a.element)
  let fcs := (List.range s.atoms.length).map (fun i => env.chem.fracCoords s i)
  let tw := ws.sum
  ((List.zipWith (fun w p => w * p.1) ws fcs).sum / tw,
   (List.zipWith (fun w p => w * p.2.1) ws fcs).sum / tw,
   (List.zipWith (fun w p => w * p.2.2) ws fcs).sum / tw)

/-- The body of the `for idx in sym_struct.equivalent_indices` loop of
`calculate_coordination_of_bulk_atoms`: for each equivalence class take its
first site, compute its Voronoi coordination number (a `RuntimeError` from
`get_cn`, modelled as `none`, propagates — this loop is not inside a `try`)
and record `(species_string, round(cn, 5))`. -/
def bulkCNPairs (env : Env) (bulk : Atoms) :
    List (List Nat) → Except PyErr (List (String × ℚ))
  | [] => .ok []
  | cls :: rest =>
    match cls with
    | [] => .error (.indexError "list index out of range")
    | i0 :: _ =>
      match env.chem.bulkCN bulk i0 with
      | none => .error .runtimeError
      | some cn =>
        match bulkCNPairs env bulk rest with
        | .error e => .error e
        | .ok pairs => .ok ((speciesStringAt bulk i0, round5 cn) :: pairs)

/-- `calculate_coordination_of_bulk_atoms` from `adsorptions.py`.  The
symmetrized structure's sites coincide with the bulk's sites; its
`equivalent_indices` are an oracle.  The resulting `defaultdict(set)` is
represented by the association list of its insertions. -/
def calculate_coordination_of_bulk_atoms (env : Env) (bulk : Atoms) :
    Except PyErr (List (String × ℚ)) :=
  bulkCNPairs env bulk (env.chem.equivalentIndices bulk)

/-- Reading the modelled `defaultdict(set)`: all coordination numbers
recorded for an element (a missing key reads as the empty set). -/
def cnLookup (pairs : List (String × ℚ)) (elem : String) : List ℚ :=
  (pairs.filter (fun p => p.1 == elem)).map (fun p => p.2)

/-- The per-site body of `_find_surface_atoms_with_voronoi`'s loop: above the
center of mass, try the Voronoi coordination number (tag 1 on a
`RuntimeError`), compare it with the minimal bulk coordination of the
element (`min` of an empty set raises an uncaught `ValueError`); at or below
the center of mass, tag 0. -/
def voronoiTagAt (env : Env) (pairs : List (String × ℚ)) (comZ : ℚ) (surf : Atoms)
    (i : Nat) : Except PyErr ℤ :=
  if comZ < (env.chem.fracCoords surf i).2.2 then
    match env.chem.surfCN surf i with
    | none => .ok 1
    | some cn =>
      match (cnLookup pairs (speciesStringAt surf i)).min? with
      | none => .error (.valueError "min() arg is an empty sequence")
      | some m => .ok (if round5 cn < m then 1 else 0)
  else .ok 0

/-- The tag-collecting loop of `_find_surface_atoms_with_voronoi`: an
exception at any site aborts the whole computation. -/
def voronoiTags (env : Env) (pairs : List (String × ℚ)) (comZ : ℚ) (surf : Atoms) :
    List Nat → Except PyErr (List ℤ)
  | [] => .ok []
  | i :: is =>
    match voronoiTagAt env pairs comZ surf i with
    | .error e => .error e
    | .ok t =>
      match voronoiTags env pairs comZ surf is with
      | .error e => .error e
      | .ok ts => .ok (t :: ts)

/-- `_find_surface_atoms_with_voronoi` from `adsorptions.py` (the Lean name
drops the leading underscore). -/
def find_surface_atoms_with_voronoi (env : Env) (bulk surf : Atoms) :
    Except PyErr (List ℤ) :=
  match calculate_coordination_of_bulk_atoms env bulk with
  | .error e => .error e
  | .ok pairs =>
    voronoiTags env pairs (calculate_center_of_mass env surf).2.2 surf
      (List.range surf.atoms.length)

/-- `_find_surface_atoms_by_height` from `adsorptions.py` (the Lean name
drops the leading underscore): an atom is tagged 1 exactly when its scaled
z-coordinate is not below the maximal scaled z-coordinate minus
`2 / |cell[2]|`.  `max` of an empty sequence raises a `ValueError`. -/
def find_surface_atoms_by_height (env : Env) (surf : Atoms) : Except PyErr (List ℤ) :=
  let unit_cell_height := env.chem.norm surf.cellC
  let sps := env.chem.scaledPositions surf
  match (sps.map (fun p => p.2.2)).max? with
  | none => .error (.valueError "max() arg is an empty sequence")
  | some scaled_max_height =>
    let scaled_threshold := scaled_max_height - 2 / unit_cell_height
    .ok (sps.map (fun p => if p.2.2 < scaled_threshold then 0 else 1))

/-- `surface_atoms.set_tags(tags)`: replace the atom tags (the two lists have
equal length in every use). -/
def setTags (s : Atoms) (tags : List ℤ) : Atoms :=
  { s with atoms := List.zipWith (fun a t => { a with tag := t }) s.atoms tags }

/-- `tag_surface_atoms` from `adsorptions.py`: an atom's tag is the `max` of
its Voronoi tag and its height tag (Python's `zip`, like `zipWith`,
truncates to the shorter list).  The Python function mutates
`surface_atoms` in place; the model returns the tagged copy. -/
def tag_surface_atoms (env : Env) (bulk surf : Atoms) : Except PyErr Atoms :=
  match find_surface_atoms_with_voronoi env bulk surf with
  | .error e => .error e
  | .ok voronoi_tags =>
    match find_surface_atoms_by_height env surf with
    | .error e => .error e
    | .ok height_tags => .ok (setTags surf (List.zipWith max voronoi_tags height_tags))

/-- `choose_surface_pkl` from `adsorptions.py`: read the precomputed
enumeration for the bulk's index, draw one candidate with
`np.random.choice`, convert (`AseAtomsAdaptor.get_atoms` is the identity in
the model), tile, tag, and return the surface with its metadata and the
sampling string `str(index) + "/" + str(total)`. -/
def choose_surface_pkl (env : Env) (bulk_atoms : Atoms) (index_in_bulk_atoms : Nat)
    (g : Rng) : Except PyErr ((Atoms × Millers × ℚ × Bool × String) × Rng) :=
  let surfaces_info := read_from_precomputed_enumerations env index_in_bulk_atoms
  let total_surfaces_possible := surfaces_info.length
  match np_random_choice total_surfaces_possible g with
  | .error e => .error e
  | .ok (index_surfaces_info, g') =>
    let si := surfaces_info.getD index_surfaces_info default
    let unit_surface_atoms := si.struct
    let surface_atoms := tile_atoms env unit_surface_atoms
    match tag_surface_atoms env bulk_atoms surface_atoms with
    | .error e => .error e
    | .ok tagged =>
      .ok ((tagged, si.millers, si.shift, si.top,
            toString index_surfaces_info ++ "/" ++ toString total_surfaces_possible), g')

/-- `standardize_bulk` from `adsorptions.py`: the conversion to a pymatgen
structure is the identity in the model and the
`SpacegroupAnalyzer(..., symprec=0.1).get_conventional_standard_structure()`
call is the `standardize` oracle. -/
def standardize_bulk (env : Env) (atoms : Atoms) : Atoms :=
  env.enums.standardize atoms

/-- `is_structure_invertible` from `adsorptions.py`: scan the symmetry
operations (their affine-matrix `[2, 2]` entries are the `symmetryOpsZZ`
oracle) and return `true` as soon as one equals `-1`. -/
def is_structure_invertible (env : Env) (structure_ : Atoms) : Bool :=
  (env.enums.symmetryOpsZZ structure_).any (fun z_xform => z_xform == -1)

/-- `flip_struct` from `adsorptions.py`: wrap, rotate 180 degrees about x
(both external ase operations), then conditionally negate the third and the
second cell vectors, and wrap again. -/
def flip_struct (env : Env) (struct : Atoms) : Atoms :=
  let atoms := env.enums.rotate180x (env.enums.wrap struct)
  let atoms := if atoms.cellC.2.2 < 0 then { atoms with cellC := posNeg atoms.cellC } else atoms
  let atoms :=
    if (cross atoms.cellA atoms.cellB).2.2 < 0 then { atoms with cellB := posNeg atoms.cellB }
    else atoms
  env.enums.wrap atoms

/-- `enumerate_surfaces` from `adsorptions.py`.  Faithfully to the source,
the `max_miller` ARGUMENT is accepted but the loop passes the module
CONSTANT `MAX_MILLER` (the `maxMiller` oracle field) to
`get_symmetrically_distinct_miller_indices`.  For each Miller index the
slabs come from the `getSlabs` oracle (`SlabGenerator(...).get_slabs(...)`
with the fixed parameters of the source); non-invertible slabs are also
flipped, and per Miller index the unflipped tuples precede the flipped
ones. -/
def enumerate_surfaces (env : Env) (bulk_atoms : Atoms) (max_miller : Nat) :
    List (Atoms × Millers × ℚ × Bool) :=
  let bulk_struct := standardize_bulk env bulk_atoms
  ((env.enums.distinctMillers bulk_struct env.enums.maxMiller).map (fun millers =>
    let slabs := env.enums.getSlabs bulk_struct millers
    let flipped_slabs_info :=
      (slabs.filter (fun slab => is_structure_invertible env slab.rep == false)).map
        (fun slab => (flip_struct env slab.rep, millers, slab.shift, false))
    let slabs_info := slabs.map (fun slab => (slab.rep, millers, slab.shift, true))
    slabs_info ++ flipped_slabs_info)).flatten

/-- `choose_adsorbate_pkl` from `adsorptions.py`: unpickle the adsorbate
inverted index, draw one entry with `np.random.choice`, and return it with
the sampling string `str(index) + "/" + str(total)`. -/
def choose_adsorbate_pkl (env : Env) (adsorbate_database : String) (g : Rng) :
    Except PyErr ((Atoms × String × List Nat × String) × Rng) :=
  let inv_index := env.chem.loadAdsDB adsorbate_database
  match np_random_choice inv_index.length g with
  | .error e => .error e
  | .ok (element, g') =>
    let entry := inv_index.getD element default
    .ok ((entry.1, entry.2.1, entry.2.2,
          toString element ++ "/" ++ toString inv_index.length), g')

/-- `get_connectivity` from `adsorptions.py`: the `natural_cutoffs` /
`NeighborList` connectivity matrix, an external ase computation. -/
def get_connectivity (env : Env) (adsorbate : Atoms) : List (List Nat) :=
  env.chem.connectivity adsorbate

/-- `convert_adsorbate_atoms_to_gratoms` from `adsorptions.py`: build the
graphic atoms object (the connectivity matrix is graph metadata that does
not alter the atom list) and set every adsorbate tag to 2. -/
def convert_adsorbate_atoms_to_gratoms (env : Env) (adsorbate : Atoms) : Atoms :=
  let _edges := get_connectivity env adsorbate
  { adsorbate with atoms := adsorbate.atoms.map (fun a => { a with tag := 2 }) }

/-- The indices of the adsorbate atoms of an adslab:
`[atom.index for atom in adslab if atom.tag == 2]`. -/
def adsorbateIndices (adslab : Atoms) : List Nat :=
  (List.range adslab.atoms.length).filter (fun i => (adslab.atoms.getD i default).tag == 2)

/-- The covalent-bond threshold of `is_config_reasonable`:
`0.8 * (COVALENT_RADIUS[e1] + COVALENT_RADIUS[e2]) / 100`. -/
def covBondThres (env : Env) (e1 e2 : String) : ℚ :=
  8/10 * (env.chem.covalentRadius e1 + env.chem.covalentRadius e2) / 100

/-- `is_config_reasonable` from `adsorptions.py`: reject the placement if any
adsorbate atom has a fractional coordinate outside `[0, 1]`, or lies closer
than the covalent-bond threshold to a Voronoi nearest neighbor that is not
itself an adsorbate atom (`VoronoiNN(allow_pathological=True, tol=0.2,
cutoff=10).get_nn_info` site indices are the `nnInfo` oracle and the
`mic=True` distance is the `micDist` oracle). -/
def is_config_reasonable (env : Env) (adslab : Atoms) : Bool :=
  let adsorbate_indices := adsorbateIndices adslab
  adsorbate_indices.all (fun idx =>
    let coord := env.chem.fracCoords adslab idx
    if coord.1 < 0 ∨ 1 < coord.1 ∨ coord.2.1 < 0 ∨ 1 < coord.2.1 ∨
        coord.2.2 < 0 ∨ 1 < coord.2.2 then
      false
    else
      let nearneighbors := env.chem.nnInfo adslab idx
      let slab_nn := nearneighbors.filter (fun j => ¬ adsorbate_indices.contains j)
      slab_nn.all (fun j =>
        let cov_bond_thres := covBondThres env (speciesStringAt adslab idx) (speciesStringAt adslab j)
        if env.chem.micDist adslab idx j < cov_bond_thres then false else true))

/-- Modelled contract of the external `catkit.gen.adsorption.Builder(...)
.add_adsorbate(adsorbate_gratoms, bonds=bond_indices, index=-1)` call: each
candidate configuration is the surface atoms followed by the adsorbate
atoms moved to builder-chosen positions (the `placements` oracle), with
every non-positional attribute preserved. -/
def builder_add_adsorbate (env : Env) (surface_gratoms : Atoms)
    (surface_atom_indices : List Nat) (adsorbate_gratoms : Atoms)
    (bond_indices : List Nat) : List Atoms :=
  (env.chem.placements surface_gratoms surface_atom_indices adsorbate_gratoms bond_indices).map
    (fun ps =>
      { surface_gratoms with
          atoms := surface_gratoms.atoms ++
            List.zipWith (fun a p => { a with position := p }) adsorbate_gratoms.atoms ps })

/-- `add_adsorbate_onto_surface` from `adsorptions.py`: mark the tag-1 atoms
as the catkit surface atoms, restrict the periodic boundary to x and y,
convert the adsorbate to tagged gratoms, enumerate candidate
configurations, keep the ones with `is_config_reasonable(...) is True`, and
draw one of them with `np.random.choice` (raising numpy's `ValueError` when
none are reasonable). -/
def add_adsorbate_onto_surface (env : Env) (surface adsorbate : Atoms)
    (bond_indices : List Nat) (g : Rng) : Except PyErr ((Atoms × String) × Rng) :=
  let surface_atom_indices :=
    (List.range surface.atoms.length).filter (fun i => (surface.atoms.getD i default).tag == 1)
  let surface_gratoms := { surface with pbc := (true, true, false) }
  let adsorbate_gratoms := convert_adsorbate_atoms_to_gratoms env adsorbate
  let adsorbed_surfaces :=
    builder_add_adsorbate env surface_gratoms surface_atom_indices adsorbate_gratoms bond_indices
  let reasonable_adsorbed_surfaces :=
    adsorbed_surfaces.filter (fun s => is_config_reasonable env s == true)
  match np_random_choice reasonable_adsorbed_surfaces.length g with
  | .error e => .error e
  | .ok (reasonable_adsorbed_surface_index, g') =>
    .ok ((reasonable_adsorbed_surfaces.getD reasonable_adsorbed_surface_index default,
          toString reasonable_adsorbed_surface_index ++ "/" ++
            toString reasonable_adsorbed_surfaces.length), g')

/-- `constrain_surface` from `adsorptions.py`: append a `FixAtoms` mask that
is `True` exactly on the tag-0 atoms, on a copy of the input. -/
def constrain_surface (atoms : Atoms) : Atoms :=
  { atoms with
      constraints := atoms.constraints ++ [atoms.atoms.map (fun atom => atom.tag == 0)] }

/-- `find_sites` from `adsorptions.py`: the coordinates of each binding atom
(at offset `len(surface) + idx` in the adsorbed surface), rounded to two
decimals. -/
def find_sites (surface adsorbed_surface : Atoms) (bond_indices : List Nat) : List Pos :=
  bond_indices.map (fun idx =>
    let atom := adsorbed_surface.atoms.getD (surface.atoms.length + idx) default
    (round2 atom.position.1, round2 atom.position.2.1, round2 atom.position.2.2))

/-- The first dictionary returned by `sample_structures`. -/
structure AdsorbedBulkDict where
  atomsobject : Atoms
  metadata : String × Millers × ℚ × Bool × String × List Pos
  samplingstr : String
deriving Repr

/-- The second dictionary returned by `sample_structures`. -/
structure BulkDict where
  atomsobject : Atoms
  metadata : String × Millers × ℚ × Bool
  samplingstr : String
deriving Repr

/-- `sample_structures` from `adsorptions.py`: choose the number of elements,
the bulk, the surface and the adsorbate, place the adsorbate, constrain
both structures, round the shift to three decimals, compute the binding
sites, compose the sampling strings with underscores and return the two
dictionaries. -/
def sample_structures (env : Env) (bulk_database adsorbate_database : String)
    (n_cat_elems_weights : Option (List (Nat × ℚ))) (g : Rng) :
    Except PyErr (AdsorbedBulkDict × BulkDict) :=
  match choose_n_elems n_cat_elems_weights g with
  | .error e => .error e
  | .ok ((n_elems, elem_sampling_str), g) =>
    match choose_bulk_pkl env bulk_database n_elems g with
    | .error e => .error e
    | .ok ((_bulk, mpid, index_of_bulk_atoms, bulk_sampling_str), g) =>
      match choose_surface_pkl env _bulk index_of_bulk_atoms g with
      | .error e => .error e
      | .ok ((surface, millers, shift, top, surface_sampling_str), g) =>
        match choose_adsorbate_pkl env adsorbate_database g with
        | .error e => .error e
        | .ok ((adsorbate, smiles, bond_indices, adsorbate_sampling_str), g) =>
          match add_adsorbate_onto_surface env surface adsorbate bond_indices g with
          | .error e => .error e
          | .ok ((adsorbed_surface0, adsorbed_surface_sampling_str), _g) =>
            let adsorbed_surface := constrain_surface adsorbed_surface0
            let surface' := constrain_surface surface
            let shift' := round3 shift
            let sites := find_sites surface' adsorbed_surface bond_indices
            let ads_sampling_str := adsorbate_sampling_str ++ "_" ++ adsorbed_surface_sampling_str
            let full_bulk_sampling_str :=
              elem_sampling_str ++ "_" ++ bulk_sampling_str ++ "_" ++ surface_sampling_str
            .ok (⟨adsorbed_surface, (mpid, millers, shift', top, smiles, sites),
                  full_bulk_sampling_str ++ "_" ++ ads_sampling_str⟩,
                 ⟨surface', (mpid, millers, shift', top), full_bulk_sampling_str⟩)

namespace Combined

/-- `Combined.get_connectivity` from `combined.py` (verbatim copy of the
module-level function). -/
def get_connectivity (env : Env) (adsorbate : Atoms) : List (List Nat) :=
  env.chem.connectivity adsorbate

/-- `Combined.convert_adsorbate_atoms_to_gratoms` from `combined.py`
(verbatim copy of the module-level function, calling the class's own
`get_connectivity`). -/
def convert_adsorbate_atoms_to_gratoms (env : Env) (adsorbate : Atoms) : Atoms :=
  let _edges := get_connectivity env adsorbate
  { adsorbate with atoms := adsorbate.atoms.map (fun a => { a with tag := 2 }) }

/-- `Combined.is_config_reasonable` from `combined.py` (verbatim copy of the
module-level function). -/
def is_config_reasonable (env : Env) (adslab : Atoms) : Bool :=
  let adsorbate_indices := adsorbateIndices adslab
  adsorbate_indices.all (fun idx =>
    let coord := env.chem.fracCoords adslab idx
    if coord.1 < 0 ∨ 1 < coord.1 ∨ coord.2.1 < 0 ∨ 1 < coord.2.1 ∨
        coord.2.2 < 0 ∨ 1 < coord.2.2 then
      false
    else
      let nearneighbors := env.chem.nnInfo adslab idx
      let slab_nn := nearneighbors.filter (fun j => ¬ adsorbate_indices.contains j)
      slab_nn.all (fun j =>
        let cov_bond_thres := covBondThres env (speciesStringAt adslab idx) (speciesStringAt adslab j)
        if env.chem.micDist adslab idx j < cov_bond_thres then false else true))

/-- `Combined.add_adsorbate_onto_surface` from `combined.py`: same body as
the module-level function, except that the filter is
`if self.is_config_reasonable(surface)` (plain truthiness) where the module
writes `if is_config_reasonable(surface) is True` — identical on booleans —
and that the result is stored in attributes rather than returned; the model
returns the stored pair. -/
def add_adsorbate_onto_surface (env : Env) (adsorbate surface : Atoms)
    (bond_indices : List Nat) (g : Rng) : Except PyErr ((Atoms × String) × Rng) :=
  let surface_atom_indices :=
    (List.range surface.atoms.length).filter (fun i => (surface.atoms.getD i default).tag == 1)
  let surface_gratoms := { surface with pbc := (true, true, false) }
  let adsorbate_gratoms := convert_adsorbate_atoms_to_gratoms env adsorbate
  let adsorbed_surfaces :=
    builder_add_adsorbate env surface_gratoms surface_atom_indices adsorbate_gratoms bond_indices
  let reasonable_adsorbed_surfaces :=
    adsorbed_surfaces.filter (fun s => is_config_reasonable env s)
  match np_random_choice reasonable_adsorbed_surfaces.length g with
  | .error e => .error e
  | .ok (reasonable_adsorbed_surface_index, g') =>
    .ok ((reasonable_adsorbed_surfaces.getD reasonable_adsorbed_surface_index default,
          toString reasonable_adsorbed_surface_index ++ "/" ++
            toString reasonable_adsorbed_surfaces.length), g')

/-- `Combined.find_sites` from `combined.py` (verbatim copy of the
module-level function). -/
def find_sites (surface adsorbed_surface : Atoms) (bond_indices : List Nat) : List Pos :=
  bond_indices.map (fun idx =>
    let atom := adsorbed_surface.atoms.getD (surface.atoms.length + idx) default
    (round2 atom.position.1, round2 atom.position.2.1, round2 atom.position.2.2))

end Combined

/-! ### General helper lemmas -/

theorem np_random_choice_ok {n : Nat} {g g' : Rng} {k : Nat}
    (h : np_random_choice n g = .ok (k, g')) :
    k < n ∧ k = g.f g.c % n ∧ g' = ⟨g.f, g.c + 1⟩ ∧ n ≠ 0 := by
  unfold np_random_choice at h
  split at h
  · exact absurd h (by simp)
  · next hn =>
    obtain ⟨hk, hg⟩ := by simpa using h
    exact ⟨hk ▸ Nat.mod_lt _ (Nat.pos_of_ne_zero hn), hk.symm, hg.symm, hn⟩

theorem getD_mem {α : Type} {l : List α} {k : Nat} (d : α) (h : k < l.length) :
    l.getD k d ∈ l := by
  rw [List.getD_eq_getElem l d h]
  exact List.getElem_mem h

theorem is_config_reasonable_spec (env : Env) (adslab : Atoms)
    (h : is_config_reasonable env adslab = true) :
    ∀ idx ∈ adsorbateIndices adslab,
      (0 ≤ (env.chem.fracCoords adslab idx).1 ∧ (env.chem.fracCoords adslab idx).1 ≤ 1 ∧
       0 ≤ (env.chem.fracCoords adslab idx).2.1 ∧ (env.chem.fracCoords adslab idx).2.1 ≤ 1 ∧
       0 ≤ (env.chem.fracCoords adslab idx).2.2 ∧ (env.chem.fracCoords adslab idx).2.2 ≤ 1) ∧
      ∀ j ∈ (env.chem.nnInfo adslab idx).filter
          (fun j => ¬ (adsorbateIndices adslab).contains j),
        covBondThres env (speciesStringAt adslab idx) (speciesStringAt adslab j) ≤
          env.chem.micDist adslab idx j := by
  intro idx hidx
  unfold is_config_reasonable at h
  have hbody := List.all_eq_true.mp h idx hidx
  simp only at hbody
  split at hbody
  · exact absurd hbody (by simp)
  · next hout =>
    push_neg at hout
    obtain ⟨b1, b2, b3, b4, b5, b6⟩ := hout
    refine ⟨⟨b1, b2, b3, b4, b5, b6⟩, ?_⟩
    intro j hj
    have hinner := List.all_eq_true.mp hbody j hj
    simp only at hinner
    split at hinner
    · exact absurd hinner (by simp)
    · next hd => exact not_lt.mp hd

/-! ### Concrete test data used by the witnesses -/

/-- A trivial enumeration environment for witnesses. -/
def testEnums : EnumEnv where
  standardize := id
  distinctMillers := fun _ _ => []
  getSlabs := fun _ _ => []
  symmetryOpsZZ := fun _ => []
  wrap := id
  rotate180x := id
  maxMiller := 2

/-- A one-atom copper bulk cell, also used as the pickled surface structure. -/
def testBulk : Atoms where
  cellA := (1, 0, 0)
  cellB := (0, 1, 0)
  cellC := (0, 0, 1)
  atoms := [⟨"Cu", 0, (0, 0, 0)⟩]
  pbc := (true, true, true)
  constraints := []

/-- A one-atom adsorbate. -/
def testAdsorbate : Atoms where
  cellA := (1, 0, 0)
  cellB := (0, 1, 0)
  cellC := (0, 0, 1)
  atoms := [⟨"H", 0, (0, 0, 0)⟩]
  pbc := (true, true, true)
  constraints := []

/-- A chemistry environment on which the whole sampling pipeline succeeds:
the single bulk atom is tagged 1 (by height), the single candidate
placement puts the adsorbate at `(0, 0, 1)` and is reasonable. -/
def testChem : ChemEnv where
  speciesWeight := fun _ => 1
  fracCoords := fun _ _ => (0, 0, 0)
  scaledPositions := fun _ => [(0, 0, 0)]
  norm := fun _ => 1
  surfCN := fun _ _ => some 10
  equivalentIndices := fun _ => [[0]]
  bulkCN := fun _ _ => some 12
  nnInfo := fun _ _ => []
  micDist := fun _ _ _ => 3
  covalentRadius := fun _ => 70
  connectivity := fun _ => []
  placements := fun _ _ _ _ => [[(0, 0, 1)]]
  precomputed := fun _ => [⟨testBulk, (1, 1, 1), 0, true⟩]
  loadBulkDB := fun _ => [(1, [⟨testBulk, "mp-30", "7/100", 0⟩])]
  loadAdsDB := fun _ => [(testAdsorbate, "*OH", [0])]
  minXY := 1

/-- The environment the witnesses run in. -/
def testEnv : Env := ⟨testChem, testEnums⟩

/-- The random stream whose every raw draw is 0. -/
def zeroRng : Rng := ⟨fun _ => 0, 0⟩

/-- The surface that `choose_surface_pkl` produces in `testEnv`: the tiled
copy of `testBulk` with its atom tagged 1. -/
def testSurface : Atoms where
  cellA := (1, 0, 0)
  cellB := (0, 1, 0)
  cellC := (0, 0, 1)
  atoms := [⟨"Cu", 1, (0, 0, 0)⟩]
  pbc := (true, true, true)
  constraints := []

/-- The adsorbed configuration the builder contract produces in `testEnv`. -/
def testAdslab : Atoms where
  cellA := (1, 0, 0)
  cellB := (0, 1, 0)
  cellC := (0, 0, 1)
  atoms := [⟨"Cu", 1, (0, 0, 0)⟩, ⟨"H", 2, (0, 0, 1)⟩]
  pbc := (true, true, false)
  constraints := []

/-! ### Claim C1 -/

/-- Claim C1: every adsorbed configuration returned by
`add_adsorbate_onto_surface` satisfies `is_config_reasonable`: each
adsorbate atom (tag 2) has all three fractional coordinates within
`[0, 1]`, and its minimum-image distance to every Voronoi nearest neighbor
belonging to the slab is at least `0.8 * (COVALENT_RADIUS[a] +
COVALENT_RADIUS[b]) / 100`. -/
theorem claim_C1 (env : Env) (surface adsorbate : Atoms) (bond_indices : List Nat)
    (g g' : Rng) (adslab : Atoms) (s : String)
    (h : add_adsorbate_onto_surface env surface adsorbate bond_indices g =
      .ok ((adslab, s), g')) :
    is_config_reasonable env adslab = true ∧
    ∀ idx ∈ adsorbateIndices adslab,
      (0 ≤ (env.chem.fracCoords adslab idx).1 ∧ (env.chem.fracCoords adslab idx).1 ≤ 1 ∧
       0 ≤ (env.chem.fracCoords adslab idx).2.1 ∧ (env.chem.fracCoords adslab idx).2.1 ≤ 1 ∧
       0 ≤ (env.chem.fracCoords adslab idx).2.2 ∧ (env.chem.fracCoords adslab idx).2.2 ≤ 1) ∧
      ∀ j ∈ (env.chem.nnInfo adslab idx).filter
          (fun j => ¬ (adsorbateIndices adslab).contains j),
        covBondThres env (speciesStringAt adslab idx) (speciesStringAt adslab j) ≤
          env.chem.micDist adslab idx j := by
  unfold add_adsorbate_onto_surface at h
  simp only at h
  split at h
  · exact absurd h (by simp)
  · next k g2 heq =>
    have ha := congrArg (fun p => p.1.1) (Except.ok.inj h)
    simp only at ha
    obtain ⟨hk, -, -, -⟩ := np_random_choice_ok heq
    have hmem := getD_mem default hk
    rw [ha] at hmem
    have hfil := List.of_mem_filter hmem
    have hicr : is_config_reasonable env adslab = true := by simpa using hfil
    exact ⟨hicr, is_config_reasonable_spec env adslab hicr⟩

/-- Witness for claim C1 at the concrete test environment. -/
theorem claim_C1_witness :
    is_config_reasonable testEnv testAdslab = true ∧
    ∀ idx ∈ adsorbateIndices testAdslab,
      (0 ≤ (testEnv.chem.fracCoords testAdslab idx).1 ∧
       (testEnv.chem.fracCoords testAdslab idx).1 ≤ 1 ∧
       0 ≤ (testEnv.chem.fracCoords testAdslab idx).2.1 ∧
       (testEnv.chem.fracCoords testAdslab idx).2.1 ≤ 1 ∧
       0 ≤ (testEnv.chem.fracCoords testAdslab idx).2.2 ∧
       (testEnv.chem.fracCoords testAdslab idx).2.2 ≤ 1) ∧
      ∀ j ∈ (testEnv.chem.nnInfo testAdslab idx).filter
          (fun j => ¬ (adsorbateIndices testAdslab).contains j),
        covBondThres testEnv (speciesStringAt testAdslab idx) (speciesStringAt testAdslab j) ≤
          testEnv.chem.micDist testAdslab idx j :=
  claim_C1 testEnv testSurface testAdsorbate [0] zeroRng ⟨zeroRng.f, 1⟩ testAdslab "0/1"
    (by rfl)

/-! ### Claim C4 -/

/-- Claim C4: `_find_surface_atoms_by_height` tags an atom 1 exactly when its
scaled z-coordinate is at least the maximum scaled z-coordinate minus
2 Angstroms divided by the length of the third unit-cell vector, and 0
otherwise. -/
theorem claim_C4 (env : Env) (surf : Atoms) (tags : List ℤ)
    (h : find_surface_atoms_by_height env surf = .ok tags) :
    tags.length = (env.chem.scaledPositions surf).length ∧
    ∃ mx, ((env.chem.scaledPositions surf).map (fun p => p.2.2)).max? = some mx ∧
      ∀ i, i < tags.length →
        ((tags.getD i 7 = 1 ↔
            mx - 2 / env.chem.norm surf.cellC ≤
              ((env.chem.scaledPositions surf).getD i default).2.2) ∧
         (tags.getD i 7 = 0 ↔
            ((env.chem.scaledPositions surf).getD i default).2.2 <
              mx - 2 / env.chem.norm surf.cellC)) := by
  unfold find_surface_atoms_by_height at h
  simp only at h
  split at h
  · exact absurd h (by simp)
  · next mx hmx =>
    have htags := Except.ok.inj h
    subst htags
    refine ⟨by simp, mx, hmx, ?_⟩
    intro i hi
    have hi' : i < (env.chem.scaledPositions surf).length := by simpa using hi
    rw [List.getD_eq_getElem _ _ hi, List.getElem_map, List.getD_eq_getElem _ _ hi']
    split
    · next hlt =>
      exact ⟨⟨fun h0 => absurd h0 (by decide), fun hle => absurd hlt (not_lt.mpr hle)⟩,
             ⟨fun _ => hlt, fun _ => rfl⟩⟩
    · next hnlt =>
      exact ⟨⟨fun _ => not_lt.mp hnlt, fun _ => rfl⟩,
             ⟨fun h0 => absurd h0 (by decide), fun hlt => absurd hlt hnlt⟩⟩

/-- Witness for claim C4: in `testEnv` the single scaled position is tagged 1. -/
theorem claim_C4_witness :
    ([(1 : ℤ)] : List ℤ).length = (testEnv.chem.scaledPositions testSurface).length ∧
    ∃ mx, ((testEnv.chem.scaledPositions testSurface).map (fun p => p.2.2)).max? = some mx ∧
      ∀ i, i < ([(1 : ℤ)] : List ℤ).length →
        ((([(1 : ℤ)] : List ℤ).getD i 7 = 1 ↔
            mx - 2 / testEnv.chem.norm testSurface.cellC ≤
              ((testEnv.chem.scaledPositions testSurface).getD i default).2.2) ∧
         (([(1 : ℤ)] : List ℤ).getD i 7 = 0 ↔
            ((testEnv.chem.scaledPositions testSurface).getD i default).2.2 <
              mx - 2 / testEnv.chem.norm testSurface.cellC)) :=
  claim_C4 testEnv testSurface [1] (by
    unfold find_surface_atoms_by_height testEnv testChem testSurface
    norm_num [List.max?])

/-! ### Claim C3 -/

theorem voronoiTags_spec (env : Env) (pairs : List (String × ℚ)) (comZ : ℚ) (surf : Atoms) :
    ∀ (is : List Nat) (ts : List ℤ), voronoiTags env pairs comZ surf is = .ok ts →
      ts.length = is.length ∧ ∀ j, j < is.length →
        voronoiTagAt env pairs comZ surf (is.getD j 0) = .ok (ts.getD j 7) := by
  intro is
  induction is with
  | nil =>
    intro ts h
    have : ([] : List ℤ) = ts := Except.ok.inj h
    subst this
    exact ⟨rfl, fun j hj => absurd hj (Nat.not_lt_zero j)⟩
  | cons i rest ih =>
    intro ts h
    unfold voronoiTags at h
    split at h
    · exact absurd h (by simp)
    · next t heq1 =>
      split at h
      · exact absurd h (by simp)
      · next ts' heq2 =>
        have : t :: ts' = ts := Except.ok.inj h
        subst this
        obtain ⟨hlen, hall⟩ := ih ts' heq2
        refine ⟨by simp [hlen], ?_⟩
        intro j hj
        cases j with
        | zero => simpa using heq1
        | succ j' =>
          have hj' : j' < rest.length := Nat.lt_of_succ_lt_succ hj
          simpa using hall j' hj'

theorem voronoiTagAt_spec (env : Env) (pairs : List (String × ℚ)) (comZ : ℚ)
    (surf : Atoms) (i : Nat) (t : ℤ)
    (h : voronoiTagAt env pairs comZ surf i = .ok t) :
    (t = 1 ↔
      (comZ < (env.chem.fracCoords surf i).2.2 ∧
       (env.chem.surfCN surf i = none ∨
        ∃ cn m, env.chem.surfCN surf i = some cn ∧
          (cnLookup pairs (speciesStringAt surf i)).min? = some m ∧ round5 cn < m))) ∧
    ((env.chem.fracCoords surf i).2.2 ≤ comZ → t = 0) := by
  unfold voronoiTagAt at h
  split at h
  · next hgt =>
    refine ⟨?_, fun hle => absurd hgt (not_lt.mpr hle)⟩
    split at h
    · next hcn =>
      have : (1 : ℤ) = t := Except.ok.inj h
      subst this
      exact ⟨fun _ => ⟨hgt, Or.inl hcn⟩, fun _ => rfl⟩
    · next cn hcn =>
      split at h
      · exact absurd h (by simp)
      · next m hm =>
        have : (if round5 cn < m then (1 : ℤ) else 0) = t := Except.ok.inj h
        subst this
        split
        · next hlt =>
          exact ⟨fun _ => ⟨hgt, Or.inr ⟨cn, m, hcn, hm, hlt⟩⟩, fun _ => rfl⟩
        · next hnlt =>
          refine ⟨fun h0 => absurd h0 (by decide), fun hrhs => ?_⟩
          rcases hrhs.2 with hnone | ⟨cn', m', hcn', hm', hlt'⟩
          · rw [hcn] at hnone; exact absurd hnone (by simp)
          · rw [hcn] at hcn'
            rw [hm] at hm'
            have hcc : cn = cn' := Option.some.inj hcn'
            have hmm : m = m' := Option.some.inj hm'
            exact absurd (hcc ▸ hmm ▸ hlt') hnlt
  · next hng =>
    have : (0 : ℤ) = t := Except.ok.inj h
    subst this
    refine ⟨⟨fun h0 => absurd h0 (by decide), fun hrhs => absurd hrhs.1 hng⟩, fun _ => rfl⟩

/-- Claim C3: `_find_surface_atoms_with_voronoi` tags an atom 1 exactly when
its fractional z-coordinate exceeds the center of mass's fractional
z-coordinate and either its rounded Voronoi coordination number is strictly
below the minimal bulk coordination recorded for its element or the
coordination computation raised a `RuntimeError`; atoms at or below the
center of mass are tagged 0. -/
theorem claim_C3 (env : Env) (bulk surf : Atoms) (tags : List ℤ)
    (h : find_surface_atoms_with_voronoi env bulk surf = .ok tags) :
    ∃ pairs, calculate_coordination_of_bulk_atoms env bulk = .ok pairs ∧
      tags.length = surf.atoms.length ∧
      ∀ i, i < surf.atoms.length →
        ((tags.getD i 7 = 1 ↔
            ((calculate_center_of_mass env surf).2.2 < (env.chem.fracCoords surf i).2.2 ∧
             (env.chem.surfCN surf i = none ∨
              ∃ cn m, env.chem.surfCN surf i = some cn ∧
                (cnLookup pairs (speciesStringAt surf i)).min? = some m ∧ round5 cn < m))) ∧
         ((env.chem.fracCoords surf i).2.2 ≤ (calculate_center_of_mass env surf).2.2 →
            tags.getD i 7 = 0)) := by
  unfold find_surface_atoms_with_voronoi at h
  split at h
  · exact absurd h (by simp)
  · next pairs hpairs =>
    obtain ⟨hlen, hall⟩ := voronoiTags_spec env pairs (calculate_center_of_mass env surf).2.2
      surf (List.range surf.atoms.length) tags h
    refine ⟨pairs, hpairs, by simpa using hlen, ?_⟩
    intro i hi
    have ha := hall i (by simpa using hi)
    rw [List.getD_eq_getElem _ _ (by simpa using hi), List.getElem_range] at ha
    exact voronoiTagAt_spec env pairs _ surf i _ ha

/-- Witness for claim C3: in `testEnv` the single bulk atom sits at the
center of mass and is tagged 0 by the Voronoi method. -/
theorem claim_C3_witness :
    ∃ pairs, calculate_coordination_of_bulk_atoms testEnv testBulk = .ok pairs ∧
      ([(0 : ℤ)] : List ℤ).length = testBulk.atoms.length ∧
      ∀ i, i < testBulk.atoms.length →
        ((([(0 : ℤ)] : List ℤ).getD i 7 = 1 ↔
            ((calculate_center_of_mass testEnv testBulk).2.2 <
              (testEnv.chem.fracCoords testBulk i).2.2 ∧
             (testEnv.chem.surfCN testBulk i = none ∨
              ∃ cn m, testEnv.chem.surfCN testBulk i = some cn ∧
                (cnLookup pairs (speciesStringAt testBulk i)).min? = some m ∧ round5 cn < m))) ∧
         ((testEnv.chem.fracCoords testBulk i).2.2 ≤
            (calculate_center_of_mass testEnv testBulk).2.2 →
            ([(0 : ℤ)] : List ℤ).getD i 7 = 0)) :=
  claim_C3 testEnv testBulk testBulk [0] (by
    unfold find_surface_atoms_with_voronoi calculate_coordination_of_bulk_atoms
    unfold testEnv testChem testBulk
    norm_num [bulkCNPairs, voronoiTags, voronoiTagAt, calculate_center_of_mass, speciesStringAt])

/-! ### Claim C8 -/

/-- Claim C8: `enumerate_surfaces` produces the same result for any two
values of its `max_miller` argument, because the loop passes the module
constant `MAX_MILLER` instead of the argument to
`get_symmetrically_distinct_miller_indices`. -/
theorem claim_C8 (env : Env) (bulk_atoms : Atoms) (m1 m2 : Nat) :
    enumerate_surfaces env bulk_atoms m1 = enumerate_surfaces env bulk_atoms m2 := rfl

/-! ### Claim C9 -/

theorem np_random_choice_ne_indexError (n : Nat) (g : Rng) (m : String) :
    np_random_choice n g ≠ .error (.indexError m) := by
  unfold np_random_choice
  split
  · intro h
    exact absurd (Except.error.inj h) (by simp)
  · intro h
    exact absurd h (by simp)

theorem np_random_choice_err {n : Nat} {g : Rng} {e : PyErr}
    (h : np_random_choice n g = .error e) : e = .valueError npEmptyChoiceMsg := by
  unfold np_random_choice at h
  split at h
  · exact (Except.error.inj h).symm
  · exact absurd h (by simp)

theorem npEmpty_ne_descriptive (n : Nat) (db : String) :
    npEmptyChoiceMsg ≠ descriptiveMissingMsg n db := by
  intro h
  have h0 := congrArg (fun s => s.data.head?) h
  simp only [descriptiveMissingMsg, String.data_append] at h0
  simp at h0
  exact absurd h0 (by decide)

/-- Claim C9: when the bulk inverted index maps the chosen `n_elems` to an
empty list, `choose_bulk_pkl` propagates numpy's low-level `ValueError`
unchanged — the `except IndexError` handler never fires, so the advertised
descriptive `ValueError` is never raised, by this or any other call. -/
theorem claim_C9 (env : Env) (bulk_database : String) (n_elems : Nat) (g : Rng)
    (hempty : lookupInv (env.chem.loadBulkDB bulk_database) n_elems = some []) :
    choose_bulk_pkl env bulk_database n_elems g = .error (.valueError npEmptyChoiceMsg) ∧
    npEmptyChoiceMsg ≠ descriptiveMissingMsg n_elems bulk_database ∧
    ∀ (env2 : Env) (db2 : String) (n2 : Nat) (g2 : Rng),
      choose_bulk_pkl env2 db2 n2 g2 ≠ .error (.valueError (descriptiveMissingMsg n2 db2)) := by
  refine ⟨?_, npEmpty_ne_descriptive n_elems bulk_database, ?_⟩
  · unfold choose_bulk_pkl
    simp [hempty, np_random_choice]
  · intro env2 db2 n2 g2 h
    simp only [choose_bulk_pkl] at h
    split at h
    · exact absurd (Except.error.inj h) (by simp)
    · next entries =>
      split at h
      · next m heq =>
        exact np_random_choice_ne_indexError _ _ _ heq
      · next e heq hne =>
        rw [np_random_choice_err hne] at h
        exact npEmpty_ne_descriptive n2 db2
          (PyErr.valueError.inj (Except.error.inj h))
      · exact absurd h (by simp)

/-- Witness for claim C9: a database whose 1-component entry list is empty. -/
def testChemEmptyBulk : ChemEnv :=
  { testChem with loadBulkDB := fun _ => [(1, [])] }

/-- Witness for claim C9 at a concrete empty inverted-index entry. -/
theorem claim_C9_witness :
    choose_bulk_pkl ⟨testChemEmptyBulk, testEnums⟩ "bulks.pkl" 1 zeroRng =
      .error (.valueError npEmptyChoiceMsg) ∧
    npEmptyChoiceMsg ≠ descriptiveMissingMsg 1 "bulks.pkl" ∧
    ∀ (env2 : Env) (db2 : String) (n2 : Nat) (g2 : Rng),
      choose_bulk_pkl env2 db2 n2 g2 ≠ .error (.valueError (descriptiveMissingMsg n2 db2)) :=
  claim_C9 ⟨testChemEmptyBulk, testEnums⟩ "bulks.pkl" 1 zeroRng (by rfl)

/-! ### Claim C10 -/

/-- Claim C10: the methods of the `Combined` class are behaviorally
equivalent to the module-level functions of the same names in
`adsorptions.py` (for `add_adsorbate_onto_surface`, up to the class's
swapped `(adsorbate, surface)` parameter order). -/
theorem claim_C10 :
    Combined.get_connectivity = get_connectivity ∧
    Combined.convert_adsorbate_atoms_to_gratoms = convert_adsorbate_atoms_to_gratoms ∧
    Combined.is_config_reasonable = is_config_reasonable ∧
    Combined.find_sites = find_sites ∧
    ∀ (env : Env) (adsorbate surface : Atoms) (bond_indices : List Nat) (g : Rng),
      Combined.add_adsorbate_onto_surface env adsorbate surface bond_indices g =
        add_adsorbate_onto_surface env surface adsorbate bond_indices g := by
  refine ⟨rfl, rfl, rfl, rfl, ?_⟩
  intro env adsorbate surface bond_indices g
  have hfun : (fun s => is_config_reasonable env s == true) =
      (fun s => Combined.is_config_reasonable env s) := by
    funext s
    rw [show Combined.is_config_reasonable = is_config_reasonable from rfl]
    cases is_config_reasonable env s <;> rfl
  unfold add_adsorbate_onto_surface Combined.add_adsorbate_onto_surface
  rw [hfun]
  rfl

/-! ### Claim C6 -/

theorem bulkCNPairs_chem (c : ChemEnv) (e1 e2 : EnumEnv) (bulk : Atoms)
    (l : List (List Nat)) : bulkCNPairs ⟨c, e1⟩ bulk l = bulkCNPairs ⟨c, e2⟩ bulk l := by
  induction l with
  | nil => rfl
  | cons cls rest ih =>
    cases cls with
    | nil => rfl
    | cons i0 t =>
      simp only [bulkCNPairs]
      rw [ih]

theorem voronoiTags_chem (c : ChemEnv) (e1 e2 : EnumEnv)
    (pairs : List (String × ℚ)) (comZ : ℚ) (surf : Atoms) (l : List Nat) :
    voronoiTags ⟨c, e1⟩ pairs comZ surf l = voronoiTags ⟨c, e2⟩ pairs comZ surf l := by
  induction l with
  | nil => rfl
  | cons i rest ih =>
    simp only [voronoiTags]
    rw [ih]
    rfl

theorem tag_surface_atoms_chem (c : ChemEnv) (e1 e2 : EnumEnv) (bulk surf : Atoms) :
    tag_surface_atoms ⟨c, e1⟩ bulk surf = tag_surface_atoms ⟨c, e2⟩ bulk surf := by
  unfold tag_surface_atoms find_surface_atoms_with_voronoi calculate_coordination_of_bulk_atoms
  simp only [bulkCNPairs_chem c e1 e2, voronoiTags_chem c e1 e2]
  rfl

/-- Claim C6: `choose_surface_pkl` obtains its candidates solely from the
precomputed-enumeration pickle for the bulk's index — its result is
unchanged under any modification of the surface-enumeration oracles, so it
never calls `enumerate_surfaces` — chooses one candidate by the random draw
over all entries, tiles and tags it, and returns it with its Miller
indices, shift, top flag and the sampling string
`[chosen surface index]/[total surfaces]`. -/
theorem claim_C6 :
    (∀ (c : ChemEnv) (e1 e2 : EnumEnv) (bulk_atoms : Atoms) (index : Nat) (g : Rng),
        choose_surface_pkl ⟨c, e1⟩ bulk_atoms index g =
          choose_surface_pkl ⟨c, e2⟩ bulk_atoms index g) ∧
    ∀ (env : Env) (bulk_atoms : Atoms) (index : Nat) (g : Rng) (surf : Atoms)
      (mil : Millers) (sh : ℚ) (top : Bool) (ss : String) (g' : Rng),
      choose_surface_pkl env bulk_atoms index g = .ok ((surf, mil, sh, top, ss), g') →
      0 < (read_from_precomputed_enumerations env index).length ∧
      ss = toString (g.f g.c % (read_from_precomputed_enumerations env index).length) ++ "/" ++
        toString (read_from_precomputed_enumerations env index).length ∧
      mil = ((read_from_precomputed_enumerations env index).getD
        (g.f g.c % (read_from_precomputed_enumerations env index).length) default).millers ∧
      sh = ((read_from_precomputed_enumerations env index).getD
        (g.f g.c % (read_from_precomputed_enumerations env index).length) default).shift ∧
      top = ((read_from_precomputed_enumerations env index).getD
        (g.f g.c % (read_from_precomputed_enumerations env index).length) default).top ∧
      tag_surface_atoms env bulk_atoms (tile_atoms env
        ((read_from_precomputed_enumerations env index).getD
          (g.f g.c % (read_from_precomputed_enumerations env index).length) default).struct) =
        .ok surf ∧
      g' = ⟨g.f, g.c + 1⟩ := by
  constructor
  · intro c e1 e2 bulk_atoms index g
    unfold choose_surface_pkl
    simp only [tag_surface_atoms_chem c e1 e2]
    rfl
  · intro env bulk_atoms index g surf mil sh top ss g' h
    unfold choose_surface_pkl at h
    simp only at h
    split at h
    · exact absurd h (by simp)
    · next k g2 heq =>
      split at h
      · exact absurd h (by simp)
      · next tagged heq2 =>
        obtain ⟨hk, hkeq, hg2, hn0⟩ := np_random_choice_ok heq
        simp only [Except.ok.injEq, Prod.mk.injEq] at h
        obtain ⟨⟨h1, h2, h3, h4, h5⟩, h6⟩ := h
        subst hkeq
        refine ⟨Nat.pos_of_ne_zero hn0, h5.symm, h2.symm, h3.symm, h4.symm, ?_, ?_⟩
        · rw [← h1]
          exact heq2
        · rw [← h6]
          exact hg2

/-! ### Evaluation of the pipeline on the concrete test environment -/

theorem eval_tile : tile_atoms testEnv testBulk = testBulk := by
  unfold tile_atoms testEnv testChem testBulk
  norm_num [posAdd, posSMul, show List.range 1 = [0] from rfl]

theorem eval_tag : tag_surface_atoms testEnv testBulk testBulk = .ok testSurface := by
  unfold tag_surface_atoms find_surface_atoms_with_voronoi find_surface_atoms_by_height
  unfold calculate_coordination_of_bulk_atoms
  rw [show testEnv.chem.equivalentIndices testBulk = [[0]] from rfl]
  rw [show bulkCNPairs testEnv testBulk [[0]] = .ok [("Cu", round5 12)] from rfl]
  simp only
  rw [show (calculate_center_of_mass testEnv testBulk).2.2 = 0 by
    unfold calculate_center_of_mass testEnv testChem testBulk
    norm_num]
  rw [show voronoiTags testEnv [("Cu", round5 12)] 0 testBulk
      (List.range testBulk.atoms.length) = .ok [0] by
    rw [show List.range testBulk.atoms.length = [0] from rfl]
    simp only [voronoiTags, voronoiTagAt]
    norm_num [testEnv, testChem, testBulk]]
  rw [show testEnv.chem.scaledPositions testBulk = [(0, 0, 0)] from rfl]
  rw [show testEnv.chem.norm testBulk.cellC = 1 from rfl]
  norm_num [List.max?, setTags, testBulk, testSurface]

theorem eval_choose_surface (g : Rng) :
    choose_surface_pkl testEnv testBulk 0 g =
      .ok ((testSurface, (1, 1, 1), 0, true, "0/1"), ⟨g.f, g.c + 1⟩) := by
  simp only [choose_surface_pkl]
  rw [show read_from_precomputed_enumerations testEnv 0 =
      [⟨testBulk, (1, 1, 1), 0, true⟩] from rfl]
  simp only [List.length_singleton, np_random_choice, Nat.mod_one]
  norm_num [List.getD, eval_tile, eval_tag]
  decide

/-- A second enumeration environment, differing from `testEnums` in every
oracle, for the noninterference half of claim C6's witness. -/
def testEnums2 : EnumEnv where
  standardize := fun s => { s with pbc := (false, false, false) }
  distinctMillers := fun _ _ => [(1, 0, 0)]
  getSlabs := fun s _ => [⟨s, 1/2⟩]
  symmetryOpsZZ := fun _ => [-1]
  wrap := fun s => { s with constraints := [] }
  rotate180x := fun s => s
  maxMiller := 9

/-- Witness for claim C6 at the concrete test environment. -/
theorem claim_C6_witness :
    choose_surface_pkl ⟨testChem, testEnums⟩ testBulk 0 zeroRng =
      choose_surface_pkl ⟨testChem, testEnums2⟩ testBulk 0 zeroRng ∧
    (0 < (read_from_precomputed_enumerations testEnv 0).length ∧
     "0/1" = toString (zeroRng.f zeroRng.c % (read_from_precomputed_enumerations testEnv 0).length) ++
       "/" ++ toString (read_from_precomputed_enumerations testEnv 0).length ∧
     ((1 : ℤ), (1 : ℤ), (1 : ℤ)) = ((read_from_precomputed_enumerations testEnv 0).getD
       (zeroRng.f zeroRng.c % (read_from_precomputed_enumerations testEnv 0).length) default).millers ∧
     (0 : ℚ) = ((read_from_precomputed_enumerations testEnv 0).getD
       (zeroRng.f zeroRng.c % (read_from_precomputed_enumerations testEnv 0).length) default).shift ∧
     true = ((read_from_precomputed_enumerations testEnv 0).getD
       (zeroRng.f zeroRng.c % (read_from_precomputed_enumerations testEnv 0).length) default).top ∧
     tag_surface_atoms testEnv testBulk (tile_atoms testEnv
       ((read_from_precomputed_enumerations testEnv 0).getD
         (zeroRng.f zeroRng.c % (read_from_precomputed_enumerations testEnv 0).length)
         default).struct) = .ok testSurface ∧
     (⟨zeroRng.f, zeroRng.c + 1⟩ : Rng) = ⟨zeroRng.f, zeroRng.c + 1⟩) :=
  ⟨claim_C6.1 testChem testEnums testEnums2 testBulk 0 zeroRng,
   claim_C6.2 testEnv testBulk 0 zeroRng testSurface (1, 1, 1) 0 true "0/1"
     ⟨zeroRng.f, zeroRng.c + 1⟩ (eval_choose_surface zeroRng)⟩

/-- The all-zero draw stream at counter `c`. -/
def zRng (c : Nat) : Rng := ⟨fun _ => 0, c⟩

theorem eval_choose_n_elems :
    choose_n_elems (some [(1, 1)]) (zRng 0) = .ok ((1, "1/1"), zRng 1) := by
  simp only [choose_n_elems, Option.getD_some]
  rw [if_pos (by norm_num)]
  rfl

theorem eval_choose_bulk (g : Rng) :
    choose_bulk_pkl testEnv "bulks.pkl" 1 g =
      .ok ((testBulk, "mp-30", 0, "7/100"), ⟨g.f, g.c + 1⟩) := by
  simp only [choose_bulk_pkl]
  rw [show lookupInv (testEnv.chem.loadBulkDB "bulks.pkl") 1 =
      some [⟨testBulk, "mp-30", "7/100", 0⟩] from rfl]
  simp only [List.length_singleton, np_random_choice, Nat.mod_one]
  norm_num [List.getD]

theorem eval_choose_bulk_z :
    choose_bulk_pkl testEnv "bulks.pkl" 1 (zRng 1) =
      .ok ((testBulk, "mp-30", 0, "7/100"), zRng 2) :=
  eval_choose_bulk (zRng 1)

theorem eval_choose_surface_z :
    choose_surface_pkl testEnv testBulk 0 (zRng 2) =
      .ok ((testSurface, (1, 1, 1), 0, true, "0/1"), zRng 3) :=
  eval_choose_surface (zRng 2)

theorem eval_choose_adsorbate (g : Rng) :
    choose_adsorbate_pkl testEnv "ads.pkl" g =
      .ok ((testAdsorbate, "*OH", [0], "0/1"), ⟨g.f, g.c + 1⟩) := by
  simp only [choose_adsorbate_pkl]
  rw [show testEnv.chem.loadAdsDB "ads.pkl" = [(testAdsorbate, "*OH", [0])] from rfl]
  simp only [List.length_singleton, np_random_choice, Nat.mod_one]
  norm_num [List.getD]
  decide

theorem eval_choose_adsorbate_z :
    choose_adsorbate_pkl testEnv "ads.pkl" (zRng 3) =
      .ok ((testAdsorbate, "*OH", [0], "0/1"), zRng 4) :=
  eval_choose_adsorbate (zRng 3)

theorem eval_add_adsorbate :
    add_adsorbate_onto_surface testEnv testSurface testAdsorbate [0] (zRng 4) =
      .ok ((testAdslab, "0/1"), zRng 5) := rfl

/-! ### Claim C5 -/

/-- Claim C5: `sample_structures` runs its steps in order — number of
elements, bulk, surface, adsorbate, placement (the random stream is
threaded `g0 → g1 → g2 → g3 → g4 → g5` through the choosers in exactly that
order), then constrains both structures — and returns the adsorbed
dictionary with metadata `(mpid, millers, round3 shift, top, smiles,
sites)` and the bare dictionary with metadata
`(mpid, millers, round3 shift, top)`. -/
theorem claim_C5 (env : Env) (bulk_database adsorbate_database : String)
    (w : Option (List (Nat × ℚ))) (g0 g1 g2 g3 g4 g5 : Rng)
    (n_elems : Nat) (elem_str : String) (bulk : Atoms) (mpid : String)
    (index_of_bulk_atoms : Nat) (bulk_str : String) (surface : Atoms)
    (millers : Millers) (shift : ℚ) (top : Bool) (surf_str : String)
    (adsorbate : Atoms) (smiles : String) (bond_indices : List Nat) (ads_str : String)
    (adsorbed : Atoms) (conf_str : String)
    (h1 : choose_n_elems w g0 = .ok ((n_elems, elem_str), g1))
    (h2 : choose_bulk_pkl env bulk_database n_elems g1 =
      .ok ((bulk, mpid, index_of_bulk_atoms, bulk_str), g2))
    (h3 : choose_surface_pkl env bulk index_of_bulk_atoms g2 =
      .ok ((surface, millers, shift, top, surf_str), g3))
    (h4 : choose_adsorbate_pkl env adsorbate_database g3 =
      .ok ((adsorbate, smiles, bond_indices, ads_str), g4))
    (h5 : add_adsorbate_onto_surface env surface adsorbate bond_indices g4 =
      .ok ((adsorbed, conf_str), g5)) :
    sample_structures env bulk_database adsorbate_database w g0 =
      .ok (⟨constrain_surface adsorbed,
            (mpid, millers, round3 shift, top, smiles,
             find_sites (constrain_surface surface) (constrain_surface adsorbed) bond_indices),
            elem_str ++ "_" ++ bulk_str ++ "_" ++ surf_str ++ "_" ++ (ads_str ++ "_" ++ conf_str)⟩,
           ⟨constrain_surface surface, (mpid, millers, round3 shift, top),
            elem_str ++ "_" ++ bulk_str ++ "_" ++ surf_str⟩) := by
  simp only [sample_structures, h1, h2, h3, h4, h5]

/-- Witness for claim C5: the whole pipeline run on the concrete test
environment with the all-zero draw stream. -/
theorem claim_C5_witness :
    sample_structures testEnv "bulks.pkl" "ads.pkl" (some [(1, 1)]) (zRng 0) =
      .ok (⟨constrain_surface testAdslab,
            ("mp-30", (1, 1, 1), round3 0, true, "*OH",
             find_sites (constrain_surface testSurface) (constrain_surface testAdslab) [0]),
            "1/1" ++ "_" ++ "7/100" ++ "_" ++ "0/1" ++ "_" ++ ("0/1" ++ "_" ++ "0/1")⟩,
           ⟨constrain_surface testSurface, ("mp-30", (1, 1, 1), round3 0, true),
            "1/1" ++ "_" ++ "7/100" ++ "_" ++ "0/1"⟩) :=
  claim_C5 testEnv "bulks.pkl" "ads.pkl" (some [(1, 1)])
    (zRng 0) (zRng 1) (zRng 2) (zRng 3) (zRng 4) (zRng 5)
    1 "1/1" testBulk "mp-30" 0 "7/100" testSurface (1, 1, 1) 0 true "0/1"
    testAdsorbate "*OH" [0] "0/1" testAdslab "0/1"
    eval_choose_n_elems eval_choose_bulk_z eval_choose_surface_z
    eval_choose_adsorbate_z eval_add_adsorbate

/-- Shared evaluation of the whole pipeline on the test environment. -/
theorem eval_sample :
    sample_structures testEnv "bulks.pkl" "ads.pkl" (some [(1, 1)]) (zRng 0) =
      .ok (⟨constrain_surface testAdslab,
            ("mp-30", (1, 1, 1), round3 0, true, "*OH",
             find_sites (constrain_surface testSurface) (constrain_surface testAdslab) [0]),
            "1/1" ++ "_" ++ "7/100" ++ "_" ++ "0/1" ++ "_" ++ ("0/1" ++ "_" ++ "0/1")⟩,
           ⟨constrain_surface testSurface, ("mp-30", (1, 1, 1), round3 0, true),
            "1/1" ++ "_" ++ "7/100" ++ "_" ++ "0/1"⟩) := by
  simp only [sample_structures, eval_choose_n_elems, eval_choose_bulk_z, eval_choose_surface_z,
    eval_choose_adsorbate_z, eval_add_adsorbate]

/-! ### Claim C7 -/

/-- Counterexample to claim C7 as stated: with the weight dictionary
`{3: 1.0}` the number-of-elements chooser draws index 0 out of 1 options,
so the claimed form '[chosen index]/[total choices]' would be "0/1", but
the component produced is `str(n_elem) + "/" + str(len(n_elems))` = "3/1",
the chosen VALUE over the total. -/
theorem claim_C7_counterexample :
    choose_n_elems (some [(3, 1)]) (zRng 0) = .ok ((3, "3/1"), zRng 1) ∧
    (zRng 0).f (zRng 0).c % 1 = 0 ∧
    "3/1" ≠ toString 0 ++ "/" ++ toString 1 := by
  refine ⟨?_, rfl, by decide⟩
  simp only [choose_n_elems, Option.getD_some]
  rw [if_pos (by norm_num)]
  rfl

/-- Claim C7, amended: the surface, adsorbate and adsorbed-configuration
components have the form '[chosen index]/[total choices]'; the
number-of-elements component is '[chosen n_elems value]/[number of
options]' (the value, not the index); the bulk component is returned
verbatim from the pickled database entry rather than computed; and
`sample_structures` composes the components with underscores, the
bare-surface string being elem_bulk_surface and the adsorbed-surface string
elem_bulk_surface_adsorbate_adsorbedconfiguration. -/
theorem claim_C7 :
    (∀ (w : Option (List (Nat × ℚ))) (g : Rng) (n : Nat) (s : String) (g' : Rng),
        choose_n_elems w g = .ok ((n, s), g') →
        s = toString n ++ "/" ++
          toString ((w.getD default_n_cat_elems_weights).map (fun p => p.1)).length ∧
        n ∈ (w.getD default_n_cat_elems_weights).map (fun p => p.1)) ∧
    (∀ (env : Env) (db : String) (n : Nat) (g : Rng) (bulk : Atoms) (mpid : String)
        (idx : Nat) (bstr : String) (g' : Rng),
        choose_bulk_pkl env db n g = .ok ((bulk, mpid, idx, bstr), g') →
        ∃ entries k, lookupInv (env.chem.loadBulkDB db) n = some entries ∧
          k < entries.length ∧ bstr = (entries.getD k default).samplingStr) ∧
    (∀ (env : Env) (bulk : Atoms) (idx : Nat) (g : Rng) (surf : Atoms) (mil : Millers)
        (sh : ℚ) (top : Bool) (ss : String) (g' : Rng),
        choose_surface_pkl env bulk idx g = .ok ((surf, mil, sh, top, ss), g') →
        ∃ k, k < (read_from_precomputed_enumerations env idx).length ∧
          ss = toString k ++ "/" ++
            toString (read_from_precomputed_enumerations env idx).length) ∧
    (∀ (env : Env) (db : String) (g : Rng) (ats : Atoms) (sm : String)
        (bonds : List Nat) (astr : String) (g' : Rng),
        choose_adsorbate_pkl env db g = .ok ((ats, sm, bonds, astr), g') →
        ∃ k, k < (env.chem.loadAdsDB db).length ∧
          astr = toString k ++ "/" ++ toString (env.chem.loadAdsDB db).length) ∧
    (∀ (env : Env) (surf ads : Atoms) (bonds : List Nat) (g : Rng) (adslab : Atoms)
        (cstr : String) (g' : Rng),
        add_adsorbate_onto_surface env surf ads bonds g = .ok ((adslab, cstr), g') →
        ∃ (k total : Nat), k < total ∧ cstr = toString k ++ "/" ++ toString total) ∧
    (∀ (env : Env) (bdb adb : String) (w : Option (List (Nat × ℚ)))
        (g0 g1 g2 g3 g4 g5 : Rng) (n_elems : Nat) (elem_str : String) (bulk : Atoms)
        (mpid : String) (idx : Nat) (bulk_str : String) (surface : Atoms)
        (millers : Millers) (shift : ℚ) (top : Bool) (surf_str : String)
        (adsorbate : Atoms) (smiles : String) (bonds : List Nat) (ads_str : String)
        (adsorbed : Atoms) (conf_str : String) (d1 : AdsorbedBulkDict) (d2 : BulkDict),
        choose_n_elems w g0 = .ok ((n_elems, elem_str), g1) →
        choose_bulk_pkl env bdb n_elems g1 = .ok ((bulk, mpid, idx, bulk_str), g2) →
        choose_surface_pkl env bulk idx g2 = .ok ((surface, millers, shift, top, surf_str), g3) →
        choose_adsorbate_pkl env adb g3 = .ok ((adsorbate, smiles, bonds, ads_str), g4) →
        add_adsorbate_onto_surface env surface adsorbate bonds g4 = .ok ((adsorbed, conf_str), g5) →
        sample_structures env bdb adb w g0 = .ok (d1, d2) →
        d1.samplingstr =
          elem_str ++ "_" ++ bulk_str ++ "_" ++ surf_str ++ "_" ++ (ads_str ++ "_" ++ conf_str) ∧
        d2.samplingstr = elem_str ++ "_" ++ bulk_str ++ "_" ++ surf_str) := by
  refine ⟨?_, ?_, ?_, ?_, ?_, ?_⟩
  · intro w g n s g' h
    unfold choose_n_elems at h
    simp only at h
    split at h
    · split at h
      · exact absurd h (by simp)
      · next k g2 heq =>
        obtain ⟨hk, -, -, -⟩ := np_random_choice_ok heq
        simp only [Except.ok.injEq, Prod.mk.injEq] at h
        obtain ⟨⟨hn, hs⟩, -⟩ := h
        subst hn
        refine ⟨by simpa using hs.symm, ?_⟩
        exact getD_mem 0 (by simpa using hk)
    · exact absurd h (by simp)
  · intro env db n g bulk mpid idx bstr g' h
    simp only [choose_bulk_pkl] at h
    split at h
    · exact absurd h (by simp)
    · next entries hent =>
      split at h
      · next m heq =>
        exact absurd heq (np_random_choice_ne_indexError _ _ _)
      · exact absurd h (by simp)
      · next k g2 heq =>
        obtain ⟨hk, -, -, -⟩ := np_random_choice_ok heq
        simp only [Except.ok.injEq, Prod.mk.injEq] at h
        exact ⟨entries, k, hent, hk, h.1.2.2.2.symm⟩
  · intro env bulk idx g surf mil sh top ss g' h
    unfold choose_surface_pkl at h
    simp only at h
    split at h
    · exact absurd h (by simp)
    · next k g2 heq =>
      split at h
      · exact absurd h (by simp)
      · next tagged heq2 =>
        obtain ⟨hk, -, -, -⟩ := np_random_choice_ok heq
        simp only [Except.ok.injEq, Prod.mk.injEq] at h
        exact ⟨k, hk, h.1.2.2.2.2.symm⟩
  · intro env db g ats sm bonds astr g' h
    simp only [choose_adsorbate_pkl] at h
    split at h
    · exact absurd h (by simp)
    · next k g2 heq =>
      obtain ⟨hk, -, -, -⟩ := np_random_choice_ok heq
      simp only [Except.ok.injEq, Prod.mk.injEq] at h
      exact ⟨k, hk, h.1.2.2.2.symm⟩
  · intro env surf ads bonds g adslab cstr g' h
    unfold add_adsorbate_onto_surface at h
    simp only at h
    split at h
    · exact absurd h (by simp)
    · next k g2 heq =>
      obtain ⟨hk, -, -, -⟩ := np_random_choice_ok heq
      simp only [Except.ok.injEq, Prod.mk.injEq] at h
      exact ⟨k, _, hk, h.1.2.symm⟩
  · intro env bdb adb w g0 g1 g2 g3 g4 g5 n_elems elem_str bulk mpid idx bulk_str
      surface millers shift top surf_str adsorbate smiles bonds ads_str adsorbed
      conf_str d1 d2 h1 h2 h3 h4 h5 h
    simp only [sample_structures, h1, h2, h3, h4, h5, Except.ok.injEq, Prod.mk.injEq] at h
    obtain ⟨hd1, hd2⟩ := h
    subst hd1
    subst hd2
    exact ⟨rfl, rfl⟩

/-- Witness for the amended claim C7, instantiating every conjunct on the
concrete test run. -/
theorem claim_C7_witness :
    ("1/1" = toString 1 ++ "/" ++
        toString (((some [((1 : Nat), (1 : ℚ))]).getD default_n_cat_elems_weights).map
          (fun p => p.1)).length ∧
      1 ∈ ((some [((1 : Nat), (1 : ℚ))]).getD default_n_cat_elems_weights).map (fun p => p.1)) ∧
    (∃ entries k, lookupInv (testEnv.chem.loadBulkDB "bulks.pkl") 1 = some entries ∧
      k < entries.length ∧ "7/100" = (entries.getD k default).samplingStr) ∧
    (∃ k, k < (read_from_precomputed_enumerations testEnv 0).length ∧
      "0/1" = toString k ++ "/" ++
        toString (read_from_precomputed_enumerations testEnv 0).length) ∧
    (∃ k, k < (testEnv.chem.loadAdsDB "ads.pkl").length ∧
      "0/1" = toString k ++ "/" ++ toString (testEnv.chem.loadAdsDB "ads.pkl").length) ∧
    (∃ (k total : Nat), k < total ∧ "0/1" = toString k ++ "/" ++ toString total) ∧
    ((⟨constrain_surface testAdslab,
        ("mp-30", (1, 1, 1), round3 0, true, "*OH",
         find_sites (constrain_surface testSurface) (constrain_surface testAdslab) [0]),
        "1/1" ++ "_" ++ "7/100" ++ "_" ++ "0/1" ++ "_" ++ ("0/1" ++ "_" ++ "0/1")⟩ :
          AdsorbedBulkDict).samplingstr =
      "1/1" ++ "_" ++ "7/100" ++ "_" ++ "0/1" ++ "_" ++ ("0/1" ++ "_" ++ "0/1") ∧
     (⟨constrain_surface testSurface, ("mp-30", (1, 1, 1), round3 0, true),
        "1/1" ++ "_" ++ "7/100" ++ "_" ++ "0/1"⟩ : BulkDict).samplingstr =
      "1/1" ++ "_" ++ "7/100" ++ "_" ++ "0/1") :=
  ⟨claim_C7.1 (some [(1, 1)]) (zRng 0) 1 "1/1" (zRng 1) eval_choose_n_elems,
   claim_C7.2.1 testEnv "bulks.pkl" 1 (zRng 1) testBulk "mp-30" 0 "7/100" (zRng 2)
     eval_choose_bulk_z,
   claim_C7.2.2.1 testEnv testBulk 0 (zRng 2) testSurface (1, 1, 1) 0 true "0/1" (zRng 3)
     eval_choose_surface_z,
   claim_C7.2.2.2.1 testEnv "ads.pkl" (zRng 3) testAdsorbate "*OH" [0] "0/1" (zRng 4)
     eval_choose_adsorbate_z,
   claim_C7.2.2.2.2.1 testEnv testSurface testAdsorbate [0] (zRng 4) testAdslab "0/1" (zRng 5)
     eval_add_adsorbate,
   claim_C7.2.2.2.2.2 testEnv "bulks.pkl" "ads.pkl" (some [(1, 1)])
     (zRng 0) (zRng 1) (zRng 2) (zRng 3) (zRng 4) (zRng 5)
     1 "1/1" testBulk "mp-30" 0 "7/100" testSurface (1, 1, 1) 0 true "0/1"
     testAdsorbate "*OH" [0] "0/1" testAdslab "0/1" _ _
     eval_choose_n_elems eval_choose_bulk_z eval_choose_surface_z eval_choose_adsorbate_z
     eval_add_adsorbate eval_sample⟩

/-! ### Claim C2 helper lemmas -/

theorem voronoiTagAt_mem01 {env : Env} {pairs : List (String × ℚ)} {comZ : ℚ}
    {surf : Atoms} {i : Nat} {t : ℤ}
    (h : voronoiTagAt env pairs comZ surf i = .ok t) : t = 0 ∨ t = 1 := by
  unfold voronoiTagAt at h
  split at h
  · split at h
    · exact Or.inr (Except.ok.inj h).symm
    · split at h
      · exact absurd h (by simp)
      · have := (Except.ok.inj h).symm
        subst this
        split
        · exact Or.inr rfl
        · exact Or.inl rfl
  · exact Or.inl (Except.ok.inj h).symm

theorem voronoiTags_mem01 {env : Env} {pairs : List (String × ℚ)} {comZ : ℚ}
    {surf : Atoms} : ∀ {is : List Nat} {ts : List ℤ},
    voronoiTags env pairs comZ surf is = .ok ts → ∀ t ∈ ts, t = 0 ∨ t = 1 := by
  intro is
  induction is with
  | nil =>
    intro ts h t ht
    have : ([] : List ℤ) = ts := Except.ok.inj h
    subst this
    exact absurd ht (by simp)
  | cons i rest ih =>
    intro ts h t ht
    unfold voronoiTags at h
    split at h
    · exact absurd h (by simp)
    · next t0 heq1 =>
      split at h
      · exact absurd h (by simp)
      · next ts' heq2 =>
        have : t0 :: ts' = ts := Except.ok.inj h
        subst this
        rcases List.mem_cons.mp ht with h0 | hrest
        · exact h0 ▸ voronoiTagAt_mem01 heq1
        · exact ih heq2 t hrest

theorem voronoi_mem01 {env : Env} {bulk surf : Atoms} {v : List ℤ}
    (h : find_surface_atoms_with_voronoi env bulk surf = .ok v) :
    ∀ t ∈ v, t = 0 ∨ t = 1 := by
  unfold find_surface_atoms_with_voronoi at h
  split at h
  · exact absurd h (by simp)
  · exact voronoiTags_mem01 h

theorem height_mem01 {env : Env} {surf : Atoms} {hts : List ℤ}
    (h : find_surface_atoms_by_height env surf = .ok hts) :
    ∀ t ∈ hts, t = 0 ∨ t = 1 := by
  unfold find_surface_atoms_by_height at h
  simp only at h
  split at h
  · exact absurd h (by simp)
  · next mx hmx =>
    have := Except.ok.inj h
    subst this
    intro t ht
    obtain ⟨p, -, hp⟩ := List.mem_map.mp ht
    rw [← hp]
    split
    · exact Or.inl rfl
    · exact Or.inr rfl

theorem setTags_tag (s : Atoms) (ts : List ℤ) (i : Nat)
    (hi : i < (setTags s ts).atoms.length) :
    ((setTags s ts).atoms.getD i default).tag = ts.getD i 0 := by
  have hlen : (setTags s ts).atoms.length = min s.atoms.length ts.length := by
    simp [setTags]
  have h1 : i < s.atoms.length := lt_of_lt_of_le (hlen ▸ hi) (min_le_left _ _)
  have h2 : i < ts.length := lt_of_lt_of_le (hlen ▸ hi) (min_le_right _ _)
  rw [List.getD_eq_getElem _ _ hi]
  simp only [setTags]
  rw [List.getElem_zipWith]
  rw [List.getD_eq_getElem ts 0 h2]

theorem zipWith_max_getD (v hts : List ℤ) (i : Nat)
    (hi : i < (List.zipWith max v hts).length) :
    (List.zipWith max v hts).getD i 0 = max (v.getD i 0) (hts.getD i 0) := by
  have h1 : i < v.length := lt_of_lt_of_le (by simpa using hi) (min_le_left _ _)
  have h2 : i < hts.length := lt_of_lt_of_le (by simpa using hi) (min_le_right _ _)
  rw [List.getD_eq_getElem _ _ hi, List.getElem_zipWith,
    List.getD_eq_getElem _ _ h1, List.getD_eq_getElem _ _ h2]

theorem max01 (a b : ℤ) (ha : a = 0 ∨ a = 1) (hb : b = 0 ∨ b = 1) :
    (max a b = 1 ↔ (a = 1 ∨ b = 1)) ∧ (max a b = 0 ∨ max a b = 1) := by
  rcases ha with ha | ha <;> rcases hb with hb | hb <;> subst ha <;> subst hb <;> exact ⟨by decide, by decide⟩

theorem zipWith_setpos_tag2 : ∀ (l : List Atom) (ps : List Pos) (a : Atom),
    a ∈ List.zipWith (fun x p => { x with position := p })
      (l.map (fun x => { x with tag := 2 })) ps → a.tag = 2 := by
  intro l
  induction l with
  | nil =>
    intro ps a ha
    exact absurd ha (by simp)
  | cons x rest ih =>
    intro ps a ha
    cases ps with
    | nil => exact absurd ha (by simp)
    | cons p ps' =>
      simp only [List.map_cons, List.zipWith_cons_cons, List.mem_cons] at ha
      rcases ha with h0 | hrest
      · rw [h0]
      · exact ih ps' a hrest

/-- Claim C2: in both structures returned by `sample_structures` every atom
carries a tag — the bare surface's atoms are tagged exactly
`max(voronoi_tag, height_tag)`, which is 0 or 1 and equals 1 exactly when
at least one of the two detection methods marks the atom; the adsorbed
structure extends the same tagged slab atoms with adsorbate atoms that are
all tagged 2. -/
theorem claim_C2 (env : Env) (bulk_database adsorbate_database : String)
    (w : Option (List (Nat × ℚ))) (g : Rng) (d1 : AdsorbedBulkDict) (d2 : BulkDict)
    (h : sample_structures env bulk_database adsorbate_database w g = .ok (d1, d2)) :
    ∃ (bulk st : Atoms) (v hts : List ℤ) (ads : List Atom),
      find_surface_atoms_with_voronoi env bulk st = .ok v ∧
      find_surface_atoms_by_height env st = .ok hts ∧
      d2.atomsobject.atoms = (setTags st (List.zipWith max v hts)).atoms ∧
      (∀ t ∈ v, t = 0 ∨ t = 1) ∧
      (∀ t ∈ hts, t = 0 ∨ t = 1) ∧
      (∀ i, i < d2.atomsobject.atoms.length →
        ((d2.atomsobject.atoms.getD i default).tag = max (v.getD i 0) (hts.getD i 0) ∧
         ((d2.atomsobject.atoms.getD i default).tag = 1 ↔
           (v.getD i 0 = 1 ∨ hts.getD i 0 = 1)) ∧
         ((d2.atomsobject.atoms.getD i default).tag = 0 ∨
          (d2.atomsobject.atoms.getD i default).tag = 1))) ∧
      d1.atomsobject.atoms = d2.atomsobject.atoms ++ ads ∧
      (∀ a ∈ ads, a.tag = 2) := by
  unfold sample_structures at h
  split at h
  · exact absurd h (by simp)
  · next n_elems elem_str g1 heq1 =>
    split at h
    · exact absurd h (by simp)
    · next bulk mpid idx bstr g2 heq2 =>
      split at h
      · exact absurd h (by simp)
      · next surface millers shift top sstr g3 heq3 =>
        split at h
        · exact absurd h (by simp)
        · next adsorbate smiles bonds astr g4 heq4 =>
          split at h
          · exact absurd h (by simp)
          · next adsorbed cstr g5 heq5 =>
            have hpair := Except.ok.inj h
            have hd1 := congrArg Prod.fst hpair
            have hd2 := congrArg Prod.snd hpair
            simp only at hd1 hd2
            -- Decompose the surface chooser: the surface is the tagged tiling.
            unfold choose_surface_pkl at heq3
            simp only at heq3
            split at heq3
            · exact absurd heq3 (by simp)
            · next k gk hqk =>
              split at heq3
              · exact absurd heq3 (by simp)
              · next tagged hq2 =>
                have hsurf : tagged = surface := by
                  have := congrArg (fun p => p.1.1) (Except.ok.inj heq3)
                  simpa using this
                rw [hsurf] at hq2
                unfold tag_surface_atoms at hq2
                split at hq2
                · exact absurd hq2 (by simp)
                · next v hv =>
                  split at hq2
                  · exact absurd hq2 (by simp)
                  · next hts hh =>
                    have hset := Except.ok.inj hq2
                    -- Decompose the placement step: the adsorbed structure is
                    -- slab atoms followed by repositioned tag-2 adsorbate atoms.
                    unfold add_adsorbate_onto_surface at heq5
                    simp only at heq5
                    split at heq5
                    · exact absurd heq5 (by simp)
                    · next k2 gk2 hq5 =>
                      have hads := congrArg (fun p => p.1.1) (Except.ok.inj heq5)
                      simp only at hads
                      obtain ⟨hk2, -, -, -⟩ := np_random_choice_ok hq5
                      have hmem := getD_mem default hk2
                      rw [hads] at hmem
                      have hmem2 := List.mem_of_mem_filter hmem
                      unfold builder_add_adsorbate at hmem2
                      obtain ⟨ps, -, hps⟩ := List.mem_map.mp hmem2
                      have hd1a : d1.atomsobject.atoms = adsorbed.atoms := by
                        rw [← hd1]
                        rfl
                      have hd2a : d2.atomsobject.atoms = surface.atoms := by
                        rw [← hd2]
                        rfl
                      have hd2set := hd2a
                      rw [← hset] at hd2set
                      refine ⟨bulk, _, v, hts,
                        List.zipWith (fun a p => { a with position := p })
                          (convert_adsorbate_atoms_to_gratoms env adsorbate).atoms ps,
                        hv, hh, hd2set, voronoi_mem01 hv, height_mem01 hh, ?_, ?_, ?_⟩
                      · intro i hi
                        rw [hd2set] at hi ⊢
                        have htl : i < (List.zipWith max v hts).length :=
                          lt_of_lt_of_le (by simpa [setTags] using hi) (min_le_right _ _)
                        have hvlen : i < v.length :=
                          lt_of_lt_of_le (by simpa using htl) (min_le_left _ _)
                        have hhlen : i < hts.length :=
                          lt_of_lt_of_le (by simpa using htl) (min_le_right _ _)
                        have htag := setTags_tag _ (List.zipWith max v hts) i hi
                        have hzip := zipWith_max_getD v hts i htl
                        obtain ⟨hiff, h01⟩ := max01 (v.getD i 0) (hts.getD i 0)
                          (voronoi_mem01 hv _ (getD_mem 0 hvlen))
                          (height_mem01 hh _ (getD_mem 0 hhlen))
                        rw [htag, hzip]
                        exact ⟨rfl, hiff, h01⟩
                      · rw [hd1a, ← hps, hd2a]
                      · intro a ha
                        exact zipWith_setpos_tag2 adsorbate.atoms ps a ha

/-- The adsorbed dictionary produced by the test run. -/
def testD1 : AdsorbedBulkDict :=
  ⟨constrain_surface testAdslab,
   ("mp-30", (1, 1, 1), round3 0, true, "*OH",
    find_sites (constrain_surface testSurface) (constrain_surface testAdslab) [0]),
   "1/1" ++ "_" ++ "7/100" ++ "_" ++ "0/1" ++ "_" ++ ("0/1" ++ "_" ++ "0/1")⟩

/-- The bare-surface dictionary produced by the test run. -/
def testD2 : BulkDict :=
  ⟨constrain_surface testSurface, ("mp-30", (1, 1, 1), round3 0, true),
   "1/1" ++ "_" ++ "7/100" ++ "_" ++ "0/1"⟩

/-- Witness for claim C2 on the concrete test run. -/
theorem claim_C2_witness :
    ∃ (bulk st : Atoms) (v hts : List ℤ) (ads : List Atom),
      find_surface_atoms_with_voronoi testEnv bulk st = .ok v ∧
      find_surface_atoms_by_height testEnv st = .ok hts ∧
      testD2.atomsobject.atoms = (setTags st (List.zipWith max v hts)).atoms ∧
      (∀ t ∈ v, t = 0 ∨ t = 1) ∧
      (∀ t ∈ hts, t = 0 ∨ t = 1) ∧
      (∀ i, i < testD2.atomsobject.atoms.length →
        ((testD2.atomsobject.atoms.getD i default).tag = max (v.getD i 0) (hts.getD i 0) ∧
         ((testD2.atomsobject.atoms.getD i default).tag = 1 ↔
           (v.getD i 0 = 1 ∨ hts.getD i 0 = 1)) ∧
         ((testD2.atomsobject.atoms.getD i default).tag = 0 ∨
          (testD2.atomsobject.atoms.getD i default).tag = 1))) ∧
      testD1.atomsobject.atoms = testD2.atomsobject.atoms ++ ads ∧
      (∀ a ∈ ads, a.tag = 2) :=
  claim_C2 testEnv "bulks.pkl" "ads.pkl" (some [(1, 1)]) (zRng 0) testD1 testD2 eval_sample

end OCData
